import Mathlib

/-
Verification development for the hey-trial-TBI lead-intake and eligibility
screening service.

Shallow embedding of the Python sources:
  src/main.py           normalize_fields, calculate_age, haversine_distance,
                        is_within_distance, process_qualification_submission_from_form
  src/twilio_sms.py     is_us_number, format_us_number
  src/push_to_monday.py push_to_monday call interface (eight required parameters)
  src/app.py            verify_code endpoint
  src/check_duplicate.py, the geocoder, the IP lookup and the SMS client are
                        external collaborators; their per-call responses are
                        supplied through an explicit environment record.

Modelling conventions:
  - Python strings are modelled at the ASCII level: str.lower, str.strip and
    the regex character classes of the source only ever see ASCII data here.
  - Python dicts are modelled as insertion-ordered association lists with
    unique keys (get / set / del preserve insertion order, new keys append).
  - Coordinates are rationals in the orchestrator (only their Python truthiness
    and the boolean outcome of the distance check matter there) and reals in
    the haversine development.
  - Typographic apostrophes stand in for the ASCII apostrophes of a few source
    message strings; the surrounding text is otherwise verbatim.
-/

/-! ## Python dict operations (insertion-ordered association lists) -/

/-- Decidable equality for `Except`, so that the embedded `calculate_age`
results can be evaluated in concrete witnesses. -/
instance {ε α : Type} [DecidableEq ε] [DecidableEq α] : DecidableEq (Except ε α) := fun x y =>
  match x, y with
  | .ok a, .ok b =>
    if h : a = b then isTrue (by rw [h]) else isFalse (fun hc => h (by cases hc; rfl))
  | .error a, .error b =>
    if h : a = b then isTrue (by rw [h]) else isFalse (fun hc => h (by cases hc; rfl))
  | .ok _, .error _ => isFalse (fun hc => Except.noConfusion hc)
  | .error _, .ok _ => isFalse (fun hc => Except.noConfusion hc)

abbrev Dict := List (String × String)

/-- Python `d.get(k)`: first binding of `k`, if any. -/
def dictGet? {α : Type} (d : List (String × α)) (k : String) : Option α :=
  match d with
  | [] => none
  | (k', v) :: rest => if k' = k then some v else dictGet? rest k

/-- Python `d.get(k, dflt)`. -/
def dictGetD {α : Type} (d : List (String × α)) (k : String) (dflt : α) : α :=
  (dictGet? d k).getD dflt

/-- Python `d[k] = v`: replace in place if the key exists, else append. -/
def dictSet {α : Type} (d : List (String × α)) (k : String) (v : α) : List (String × α) :=
  match d with
  | [] => [(k, v)]
  | (k', v') :: rest => if k' = k then (k, v) :: rest else (k', v') :: dictSet rest k v

/-- Python `del d[k]`: remove the first binding of `k`. -/
def dictDelete {α : Type} (d : List (String × α)) (k : String) : List (String × α) :=
  match d with
  | [] => []
  | (k', v') :: rest => if k' = k then rest else (k', v') :: dictDelete rest k

/-! ## String helpers mirroring the Python primitives -/

/-- Python whitespace for `str.strip()` (ASCII part). -/
def isPyWhitespace (c : Char) : Bool :=
  c == ' ' || c == '\t' || c == '\n' || c == '\r' || c == '\x0b' || c == '\x0c'

/-- Python `str.strip()`. -/
def pyStrip (s : String) : String :=
  String.mk (((s.toList.dropWhile isPyWhitespace).reverse.dropWhile isPyWhitespace).reverse)

/-- Python `str.lower()` on one ASCII character, written as an explicit table
so that proofs can evaluate it by kernel reduction. -/
def charLower (c : Char) : Char :=
  if c == 'A' then 'a' else if c == 'B' then 'b' else if c == 'C' then 'c'
  else if c == 'D' then 'd' else if c == 'E' then 'e' else if c == 'F' then 'f'
  else if c == 'G' then 'g' else if c == 'H' then 'h' else if c == 'I' then 'i'
  else if c == 'J' then 'j' else if c == 'K' then 'k' else if c == 'L' then 'l'
  else if c == 'M' then 'm' else if c == 'N' then 'n' else if c == 'O' then 'o'
  else if c == 'P' then 'p' else if c == 'Q' then 'q' else if c == 'R' then 'r'
  else if c == 'S' then 's' else if c == 'T' then 't' else if c == 'U' then 'u'
  else if c == 'V' then 'v' else if c == 'W' then 'w' else if c == 'X' then 'x'
  else if c == 'Y' then 'y' else if c == 'Z' then 'z' else c

/-- Python `str.lower()` on ASCII data. -/
def pyLower (s : String) : String :=
  String.mk (s.toList.map charLower)

/-- Python `str.split(sep)` for a one-character separator, on character
lists. -/
def splitChar (sep : Char) : List Char → List (List Char)
  | [] => [[]]
  | c :: cs =>
    let r := splitChar sep cs
    if c == sep then [] :: r
    else (c :: r.headD []) :: r.tail

/-- Join character-list pieces with a one-character separator. -/
def joinChars (sep : Char) : List (List Char) → List Char
  | [] => []
  | [piece] => piece
  | piece :: rest => piece ++ sep :: joinChars sep rest

/-- Join strings with a separator (Python `sep.join(pieces)`). -/
def joinWith (sep : String) : List String → String
  | [] => ""
  | [s] => s
  | s :: rest => s ++ sep ++ joinWith sep rest

/-- Does `pat` occur contiguously at the start of `s`? -/
def charsStartWith : List Char → List Char → Bool
  | [], _ => true
  | _ :: _, [] => false
  | p :: ps, c :: cs => p == c && charsStartWith ps cs

/-- Does `pat` occur contiguously anywhere in `s`? Python `pat in s`. -/
def charsContain (pat : List Char) : List Char → Bool
  | [] => charsStartWith pat []
  | c :: cs => charsStartWith pat (c :: cs) || charsContain pat cs

/-- Python `pat in s` on strings. -/
def strContains (s pat : String) : Bool :=
  charsContain pat.toList s.toList

/-- Python `re.sub(r"[^\d]", "", s)` (ASCII digits). -/
def pyDigitsOnly (s : String) : String :=
  String.mk (s.toList.filter Char.isDigit)

/-! ## Field normalizer — src/main.py `normalize_fields` (lines 164-201) -/

/-- Inner helper `normalize_yes_no` of `normalize_fields`. -/
def normalizeYesNo (value : String) : String :=
  let val := pyLower (pyStrip value)
  if val = "yes" ∨ val = "y" then "Yes"
  else if val = "no" ∨ val = "n" then "No"
  else value

/-- Inner helper `normalize_handedness` of `normalize_fields`. -/
def normalizeHandedness (value : String) : String :=
  let val := pyLower (pyStrip value)
  if strContains val "left" then "Left-handed"
  else if strContains val "right" then "Right-handed"
  else value

/-- Inner helper `normalize_consent` of `normalize_fields`. -/
def normalizeConsent (value : String) : String :=
  let val := pyLower (pyStrip value)
  if val = "yes" then "I, confirm"
  else if val = "no" then "I, do not confirm"
  else value

/-- The five Yes/No family fields of the loop in `normalize_fields`. -/
def yesNoKeys : List String :=
  ["tbi_year", "memory_issues", "english_fluent", "can_exercise", "can_mri"]

/-- One iteration of the `normalize_fields` loop: how the value stored under
`key` is rewritten. -/
def normalizeEntry (key value : String) : String :=
  if key ∈ yesNoKeys then normalizeYesNo value
  else if key = "handedness" then normalizeHandedness value
  else if key = "future_study_consent" then normalizeConsent value
  else value

/-- Python `normalize_fields(data)`: copy the dict and rewrite the value of
each key in place. -/
def normalize_fields (data : Dict) : Dict :=
  data.map (fun p => (p.1, normalizeEntry p.1 p.2))

/-! ## Validators — the email regex of src/main.py line 470 and
src/twilio_sms.py `is_us_number` / `format_us_number` -/

/-- Character class `[a-zA-Z0-9._%+-]` of the email regex local part. -/
def emailLocalChar (c : Char) : Bool :=
  c.isAlpha || c.isDigit || c == '.' || c == '_' || c == '%' || c == '+' || c == '-'

/-- Character class `[a-zA-Z0-9.-]` of the email regex domain part. -/
def emailDomainChar (c : Char) : Bool :=
  c.isAlpha || c.isDigit || c == '.' || c == '-'

/-- Domain part of the regex: `[a-zA-Z0-9.-]+\.[a-zA-Z]` twice or more, to the
end of the string.  Because the final run is all letters, the splitting dot is
the last dot of the string. -/
def emailDomainOk (r : List Char) : Bool :=
  let parts := splitChar '.' r
  decide (parts.length ≥ 2) &&
    (let tld := parts.getLastD []
     let front := joinChars '.' parts.dropLast
     decide (tld.length ≥ 2) && tld.all Char.isAlpha &&
       !front.isEmpty && front.all emailDomainChar)

/-- The anchored email regex of src/main.py line 470 (the `$` is modelled as
end-of-string).  The character classes exclude `@`, so the string must contain
exactly one `@`. -/
def emailOk (s : String) : Bool :=
  match splitChar '@' s.toList with
  | [l, r] => !l.isEmpty && l.all emailLocalChar && emailDomainOk r
  | _ => false

/-- src/twilio_sms.py `is_us_number`. -/
def is_us_number (number : String) : Bool :=
  let cleaned := (pyDigitsOnly number).toList
  cleaned.length == 10 || (cleaned.length == 11 && charsStartWith ['1'] cleaned)

/-- src/twilio_sms.py `format_us_number`. -/
def format_us_number (phone : String) : String :=
  let digits := (pyDigitsOnly phone).toList
  if digits.length == 10 then "+1" ++ String.mk digits
  else if digits.length == 11 && charsStartWith ['1'] digits then "+" ++ String.mk digits
  else phone

/-! ## Dates and `calculate_age` — src/main.py lines 96-111 -/

/-- A `datetime.date` value. -/
structure PyDate where
  year : Int
  month : Int
  day : Int
deriving DecidableEq

/-- Gregorian leap year rule used by `datetime`. -/
def isLeapYear (y : Int) : Bool :=
  y % 4 == 0 && (y % 100 != 0 || y % 400 == 0)

/-- Days in a month, per the Gregorian calendar of `datetime`. -/
def daysInMonth (y m : Int) : Int :=
  if m = 1 ∨ m = 3 ∨ m = 5 ∨ m = 7 ∨ m = 8 ∨ m = 10 ∨ m = 12 then 31
  else if m = 4 ∨ m = 6 ∨ m = 9 ∨ m = 11 then 30
  else if m = 2 then (if isLeapYear y then 29 else 28)
  else 0

/-- Digits of an ASCII numeral to a natural number. -/
def digitsToNat (cs : List Char) : Nat :=
  cs.foldl (fun n c => n * 10 + (c.toNat - 48)) 0

/-- Python `datetime.datetime.strptime(s, "%m/%d/%Y").date()` for the canonical
inputs of this service: one- or two-digit month and day, four-digit year,
validated against the Gregorian calendar; `none` models the `ValueError`. -/
def parseDate (s : String) : Option PyDate :=
  match splitChar '/' s.toList with
  | [ms, ds, ys] =>
    if decide (1 ≤ ms.length) && decide (ms.length ≤ 2) && ms.all Char.isDigit &&
       decide (1 ≤ ds.length) && decide (ds.length ≤ 2) && ds.all Char.isDigit &&
       decide (ys.length = 4) && ys.all Char.isDigit then
      let m : Int := (digitsToNat ms : Nat)
      let d : Int := (digitsToNat ds : Nat)
      let y : Int := (digitsToNat ys : Nat)
      if decide (1 ≤ y) && decide (1 ≤ m) && decide (m ≤ 12) &&
         decide (1 ≤ d) && decide (d ≤ daysInMonth y m) then
        some ⟨y, m, d⟩
      else none
    else none
  | _ => none

/-- Python tuple comparison `(a1, a2) < (b1, b2)`. -/
def monthDayLt (a b : Int × Int) : Bool :=
  decide (a.1 < b.1) || (decide (a.1 = b.1) && decide (a.2 < b.2))

/-- The age arithmetic of `calculate_age`:
`today.year - birth.year - ((today.month, today.day) < (birth.month, birth.day))`. -/
def pyAge (birth today : PyDate) : Int :=
  today.year - birth.year -
    (if monthDayLt (today.month, today.day) (birth.month, birth.day) then 1 else 0)

/-- The `ValueError` message `calculate_age` raises for an under-18 applicant
(the inner message interpolated into the re-raise, double period included). -/
def under18Message : String :=
  "Invalid date of birth or age: Age must be 18 years or older for these studies.. Please use `MM/DD/YYYY` and ensure you are 18 or older."

/-- The `ValueError` message for a date string `strptime` rejects (the exact
interpolated text of CPython is irrelevant downstream and abbreviated here). -/
def badFormatMessage : String :=
  "Invalid date of birth or age: the date string does not match format %m/%d/%Y. Please use `MM/DD/YYYY` and ensure you are 18 or older."

/-- src/main.py `calculate_age` on an already-parsed date: compute the age,
raise (`Except.error`) if it is under 18. -/
def calculate_age (birth today : PyDate) : Except String Int :=
  let age := pyAge birth today
  if age < 18 then .error under18Message else .ok age

/-- src/main.py `calculate_age` on the raw date-of-birth string. -/
def calculateAgeFromString (dob : String) (today : PyDate) : Except String Int :=
  match parseDate dob with
  | none => .error badFormatMessage
  | some birth => calculate_age birth today

/-! ## Geospatial utility — src/main.py lines 114-123 and 159-162.
The floats of the source are modelled as real numbers. -/

/-- Python `math.radians(x)`. -/
noncomputable def radians (x : ℝ) : ℝ :=
  x * Real.pi / 180

/-- Python `math.atan2(y, x)`, the argument of the complex number `x + i y`
(range `(-π, π]`, `atan2 0 0 = 0`). -/
noncomputable def atan2 (y x : ℝ) : ℝ :=
  Complex.arg ⟨x, y⟩

/-- src/main.py `haversine_distance`: great-circle distance in miles with
Earth radius 3958.8. -/
noncomputable def haversine_distance (lat1 lon1 lat2 lon2 : ℝ) : ℝ :=
  let R : ℝ := 3958.8
  let d_lat := radians (lat2 - lat1)
  let d_lon := radians (lon2 - lon1)
  let a := Real.sin (d_lat / 2) ^ 2 +
    Real.cos (radians lat1) * Real.cos (radians lat2) * Real.sin (d_lon / 2) ^ 2
  let c := 2 * atan2 (Real.sqrt a) (Real.sqrt (1 - a))
  R * c

/-- src/main.py `KESSLER_COORDS` (study target latitude). -/
noncomputable def KESSLER_LAT : ℝ := 40.8255

/-- src/main.py `KESSLER_COORDS` (study target longitude). -/
noncomputable def KESSLER_LON : ℝ := -74.3594

/-- src/main.py `DISTANCE_THRESHOLD_MILES`. -/
noncomputable def DISTANCE_THRESHOLD_MILES : ℝ := 50

/-- src/main.py `is_within_distance`: distance from the study target is at
most the threshold. -/
def is_within_distance (user_lat user_lon : ℝ) : Prop :=
  haversine_distance user_lat user_lon KESSLER_LAT KESSLER_LON ≤ DISTANCE_THRESHOLD_MILES

/-! ## Collaborator call records and the session store -/

/-- src/main.py `MONDAY_BOARD_ID`. -/
def MONDAY_BOARD_ID : Int := 2014579172

/-- One call to `push_to_monday`.  The signature in src/push_to_monday.py has
eight required parameters (`data, group_id, qualified, tags, ipinfo_text,
board_id, monday_column_mappings, dropdown_allowed_tags`); a call site that
omits the last two (recorded here as `none`) raises `TypeError` in Python
before the function body runs. -/
structure PushCall where
  data : Dict
  group_id : String
  qualified : Bool
  tags : List String
  ipinfo_text : String
  board_id : Int
  monday_column_mappings : Option (List (String × String))
  dropdown_allowed_tags : Option (List String)
deriving DecidableEq

/-- Does the Python call raise `TypeError` for missing required arguments? -/
def pushCallRaises (c : PushCall) : Bool :=
  c.monday_column_mappings.isNone || c.dropdown_allowed_tags.isNone

/-- The dict stored in `sessions[submission_id]` by
`process_qualification_submission_from_form` (src/main.py lines 571-579).
`monday_board_id` is `Option` because the orchestrator stores no such key
(`none`); src/app.py reads it with `submission_data["monday_board_id"]`,
which raises `KeyError` when the key is absent. -/
structure Session where
  data : Dict
  code : String
  push_to_monday_flag : Bool
  group : String
  qualified : Bool
  tags : List String
  ip_info_text : String
  monday_board_id : Option Int
deriving DecidableEq

/-- The module-level `sessions` dict, keyed by submission id. -/
abbrev SessionStore := List (String × Session)

/-! ## The qualification orchestrator —
src/main.py `process_qualification_submission_from_form` (lines 444-600) -/

/-- The per-call responses of the external collaborators and the ambient
runtime values (today's date, the generated uuid and code): everything the
orchestrator consumes that is not the submitted form data. -/
structure Env where
  /-- Response of `check_duplicate_email(email, MONDAY_BOARD_ID)`. -/
  isDuplicate : Bool
  /-- Response of `get_coords_from_city_state`: `none` models the empty dict
  of a geocoding failure. -/
  geocode : Option (Rat × Rat)
  /-- Boolean outcome of `is_within_distance` at the geocoded coordinates
  (the real-valued haversine predicate is developed separately above). -/
  withinDistance : Rat → Rat → Bool
  /-- Success flag returned by `send_verification_sms`. -/
  smsSuccess : Bool
  /-- Error message returned by `send_verification_sms` on failure. -/
  smsError : String
  /-- The fresh `str(uuid.uuid4())` submission id. -/
  freshId : String
  /-- The `generate_verification_code()` result. -/
  generatedCode : String
  /-- The joined `get_location_from_ip` text for a truthy ip address. -/
  ipInfoText : String
  /-- `datetime.date.today()`. -/
  today : PyDate

/-- The JSON-like result dict of the orchestrator. -/
structure FormResult where
  status : String
  message : String
  submission_id : Option String
deriving DecidableEq

/-- The orchestrator's full observable behaviour: its returned dict, the
session store after the call, every `push_to_monday` call site reached
(attempted), the subset whose body actually ran (made), and every
`send_verification_sms` call `(formatted number, code)`. -/
structure ProcResult where
  result : FormResult
  store : SessionStore
  recordsAttempted : List PushCall
  recordsMade : List PushCall
  smsSent : List (String × String)
deriving DecidableEq

/-- Python truthiness of the optional ip address string. -/
def ipTruthy : Option String → Bool
  | none => false
  | some s => !(s == "")

/-- Step 1 of the orchestrator: normalize the form data, then store a truthy
ip address under the `"ip"` key. -/
def procData (form_data : Dict) (ip_address : Option String) : Dict :=
  let data := normalize_fields form_data
  if ipTruthy ip_address then dictSet data "ip" (ip_address.getD "") else data

/-- Message strings of the orchestrator (src/main.py lines 472-591; typographic
apostrophes stand in for ASCII ones). -/
def emailErrorMessage : String :=
  "⚠️ Invalid email address format. Please provide a valid email (e.g., example@domain.com)."

/-- Invalid-phone result message. -/
def phoneErrorMessage : String :=
  "⚠️ Invalid US phone number format. Please enter a 10-digit US number (e.g. 5551234567)."

/-- Missing date-of-birth result message. -/
def dobMissingMessage : String :=
  "⚠️ Date of birth is missing."

/-- Missing city/state result message. -/
def cityMissingMessage : String :=
  "⚠️ City and State information is missing."

/-- Duplicate-email result message (source line 498; never actually returned,
see the duplicate branch below). -/
def duplicateMessage : String :=
  "⚠️ It looks like you’ve already submitted an application for this platform. We’ll be in touch if you qualify!"

/-- Geocoding-failure result message (source line 503). -/
def locationErrorMessage : String :=
  "⚠️ Sorry, we couldn’t determine your location from the provided City/State. Please ensure it’s correct (e.g., ’Newark, NJ’)."

/-- Message returned by the broad `except Exception` handler (source line 600). -/
def unexpectedErrorMessage : String :=
  "An unexpected error occurred during qualification. Please try again."

/-- Scenario 1 interim message (qualified). -/
def qualifiedInterimMessage : String :=
  "✅ Thank you! Based on your answers, you may qualify for a TBI study."

/-- Scenario 2 interim message (not qualified, consented to future studies). -/
def consentedInterimMessage : String :=
  "Thank you for your interest. Based on your answers, you do not meet the current study criteria, but since you opted for future studies, we will verify your contact information."

/-- Suffix appended to the interim message when the SMS went out. -/
def smsPromptSuffix : String :=
  " Please check your phone for a 4-digit verification code."

/-- SMS-failure result message. -/
def smsFailMessage (err : String) : String :=
  "❌ Failed to send SMS for verification: " ++ err ++ ". Please check your phone number and try again."

/-- Scenario 3 message prefix (disqualified, reasons present). -/
def becausePre : String :=
  "Thank you for your interest. Unfortunately, based on your answers, you do not meet the current study criteria because "

/-- Scenario 3 message suffix (disqualified, reasons present). -/
def becauseSuf : String :=
  ". We appreciate your time."

/-- Scenario 3 message when the reasons list is empty. -/
def noReasonsMessage : String :=
  "Thank you for your interest. Unfortunately, based on your answers, you do not meet the current study criteria. We appreciate your time."

/-- The seven disqualification-reason strings, appended in source order
(src/main.py lines 522-530; the age reason is commented out in the source). -/
def disqualification_reasons (data : Dict) (distance_ok : Bool) : List String :=
  (if !distance_ok then ["you are located outside the eligible distance from our research site"] else []) ++
  (if !(dictGet? data "tbi_year" == some "Yes") then ["you have not experienced a TBI at least one year ago"] else []) ++
  (if !(dictGet? data "memory_issues" == some "Yes") then ["you do not have persistent memory problems"] else []) ++
  (if !(dictGet? data "english_fluent" == some "Yes") then ["you are not fluent in English"] else []) ++
  (if !(dictGet? data "can_exercise" == some "Yes") then ["you are not willing or able to exercise"] else []) ++
  (if !(dictGet? data "can_mri" == some "Yes") then ["you are not able to undergo an MRI"] else [])

/-- The qualification conjunction (src/main.py lines 507-514). -/
def qualifiedOf (data : Dict) (distance_ok : Bool) : Bool :=
  (dictGet? data "tbi_year" == some "Yes") &&
  (dictGet? data "memory_issues" == some "Yes") &&
  (dictGet? data "english_fluent" == some "Yes") &&
  (dictGet? data "can_exercise" == some "Yes") &&
  (dictGet? data "can_mri" == some "Yes") &&
  distance_ok

/-- The classification tags (src/main.py lines 518-520). -/
def tagsOf (data : Dict) (distance_ok : Bool) : List String :=
  (if !distance_ok then ["Too far"] else []) ++
  (if dictGet? data "handedness" == some "Left-handed" then ["Left-handed"] else [])

/-- The reasons join of src/main.py line 556:
`", and ".join([", ".join(reasons[:-1]), reasons[-1]])` for two or more
reasons, the lone reason otherwise. -/
def joinReasons (reasons : List String) : String :=
  if reasons.length > 1 then
    joinWith ", " reasons.dropLast ++ ", and " ++ reasons.getLastD ""
  else reasons.headD ""

/-- The SMS-verification tail of the orchestrator (src/main.py lines 566-591):
create the session, send the code, and on delivery failure delete the session
again and fail. -/
def smsFlow (env : Env) (data : Dict) (store : SessionStore) (ip_address : Option String)
    (push_to_monday_flag : Bool) (group : String) (qualified : Bool) (tags : List String)
    (final_message : String) : ProcResult :=
  let submission_id := env.freshId
  let session : Session :=
    { data := data
      code := env.generatedCode
      push_to_monday_flag := push_to_monday_flag
      group := group
      qualified := qualified
      tags := tags
      ip_info_text := if ipTruthy ip_address then env.ipInfoText else ""
      monday_board_id := none }
  let store' := dictSet store submission_id session
  let formatted := format_us_number (dictGetD data "phone" "")
  let sent := [(formatted, env.generatedCode)]
  if env.smsSuccess then
    { result := ⟨"sms_required", final_message ++ smsPromptSuffix, some submission_id⟩
      store := store'
      recordsAttempted := []
      recordsMade := []
      smsSent := sent }
  else
    { result := ⟨"error", smsFailMessage env.smsError, none⟩
      store := dictDelete store' submission_id
      recordsAttempted := []
      recordsMade := []
      smsSent := sent }

/-- src/main.py `process_qualification_submission_from_form` (lines 444-600).
The early `return` statements of the source become the `else`-less arms of the
nested conditionals below, in source order: email shape, phone shape, missing
or invalid or under-18 date of birth, missing city/state, duplicate email,
geocoding failure (including the Python falsiness of a 0.0 coordinate), then
outcome routing.  In the duplicate branch the source calls `push_to_monday`
with six arguments against its eight-parameter signature: the `TypeError` is
caught by the broad `except Exception` handler, which returns the generic
error dict, so the duplicate result dict of line 498 is unreachable. -/
def process_qualification_submission_from_form (env : Env) (form_data : Dict)
    (ip_address : Option String) (store : SessionStore) : ProcResult :=
  let data := procData form_data ip_address
  let noEffects : FormResult → ProcResult :=
    fun r => { result := r, store := store, recordsAttempted := [], recordsMade := [], smsSent := [] }
  if !emailOk (dictGetD data "email" "") then
    noEffects ⟨"error", emailErrorMessage, none⟩
  else if !is_us_number (dictGetD data "phone" "") then
    noEffects ⟨"error", phoneErrorMessage, none⟩
  else
    let dob_value := dictGetD data "dob" ""
    if dob_value == "" then
      noEffects ⟨"error", dobMissingMessage, none⟩
    else
      match calculateAgeFromString dob_value env.today with
      | .error e => noEffects ⟨"error", "⚠️ " ++ e, none⟩
      | .ok _age =>
        let city_state_value := dictGetD data "city_state" ""
        if city_state_value == "" then
          noEffects ⟨"error", cityMissingMessage, none⟩
        else if env.isDuplicate then
          let duplicate_info : Dict :=
            [("email", dictGetD data "email" ""),
             ("name", dictGetD data "name" "Duplicate Form"),
             ("source", "Form Submission")]
          let dupCall : PushCall :=
            ⟨duplicate_info, "group_mkqb9ps4", false, ["Duplicate"], "", MONDAY_BOARD_ID, none, none⟩
          { result := ⟨"error", unexpectedErrorMessage, none⟩
            store := store
            recordsAttempted := [dupCall]
            recordsMade := []
            smsSent := [] }
        else
          match env.geocode with
          | none => noEffects ⟨"error", locationErrorMessage, none⟩
          | some (lat, lon) =>
            if lat == 0 || lon == 0 then
              noEffects ⟨"error", locationErrorMessage, none⟩
            else
              let distance_ok := env.withinDistance lat lon
              let qualified := qualifiedOf data distance_ok
              let group := if qualified then "new_group58505__1" else "new_group__1"
              let tags := tagsOf data distance_ok
              let reasons := disqualification_reasons data distance_ok
              if qualified then
                smsFlow env data store ip_address true group qualified tags
                  qualifiedInterimMessage
              else if !qualified && (dictGet? data "future_study_consent" == some "I, confirm") then
                smsFlow env data store ip_address true group qualified tags
                  consentedInterimMessage
              else
                let final_message :=
                  if reasons.length > 0 then becausePre ++ joinReasons reasons ++ becauseSuf
                  else noReasonsMessage
                noEffects ⟨"disqualified_no_capture", final_message, none⟩

/-! ## The verification endpoint — src/app.py `verify_code` (lines 201-261) -/

/-- A loaded study config (src/configs/*.py), as consumed by `verify_code`. -/
structure StudyConfig where
  FORM_TITLE : String
  MONDAY_COLUMN_MAPPINGS : List (String × String)
  MONDAY_DROPDOWN_ALLOWED_TAGS : List String
deriving DecidableEq

/-- The collaborator environment of `verify_code`: `load_study_config`. -/
structure VerifyEnv where
  loadStudyConfig : Option String → Option StudyConfig

/-- How a `verify_code` request terminates. -/
inductive VerifyOutcome where
  /-- A plain JSON error dict (session missing, or study config missing). -/
  | jsonError (message : String)
  /-- The code did not match; the session remains for a retry. -/
  | invalidCode (message : String)
  /-- The 303 redirect to the thank-you page. -/
  | redirect (status : String) (message : String)
  /-- An exception escaped the handler (HTTP 500).  On the `KeyError` for the
  absent `"monday_board_id"` key this is a `NameError`: the `except` block
  itself reads the not-yet-assigned `study_id_for_verify`. -/
  | unhandledException
deriving DecidableEq

/-- The observable behaviour of one `verify_code` request. -/
structure VerifyResult where
  outcome : VerifyOutcome
  store : SessionStore
  recordsMade : List PushCall
deriving DecidableEq

/-- Success message after verification, qualified branch (src/app.py line 238). -/
def verifiedQualifiedMessage (study_title : String) : String :=
  "✅ Your submission is confirmed! Based on your answers, you may qualify for the " ++
    study_title ++ ". We will contact you soon with more details."

/-- Success message after verification, consented branch (src/app.py line 240). -/
def verifiedConsentedMessage : String :=
  "✅ Your submission is confirmed! Based on your answers, you do not meet the current study criteria, but your information has been saved for future studies you may qualify for."

/-- Session-not-found message (src/app.py line 207). -/
def sessionNotFoundMessage : String :=
  "Verification session expired or not found. Please resubmit the form."

/-- Config-missing message (src/app.py line 224). -/
def configMissingMessage : String :=
  "Verification failed: Study configuration missing."

/-- Code-mismatch message (src/app.py line 261). -/
def codeMismatchMessage : String :=
  "❌ That code doesn’t match. Please try again."

/-- src/app.py `verify_code`: look the session up; on a code match read the
frozen fields — the read of `submission_data["monday_board_id"]` raises
`KeyError` whenever the key is absent, and the broad handler then raises
`NameError` itself — then load the study config, push to Monday when flagged
(an eight-argument call, so the body runs), delete the session, and redirect. -/
def verify_code (env : VerifyEnv) (store : SessionStore)
    (submission_id code : String) : VerifyResult :=
  match dictGet? store submission_id with
  | none => ⟨.jsonError sessionNotFoundMessage, store, []⟩
  | some s =>
    if code == s.code then
      match s.monday_board_id with
      | none => ⟨.unhandledException, store, []⟩
      | some board_id =>
        match env.loadStudyConfig (dictGet? s.data "study_id") with
        | none => ⟨.jsonError configMissingMessage, store, []⟩
        | some cfg =>
          let records :=
            if s.push_to_monday_flag then
              [(⟨s.data, s.group, s.qualified, s.tags, s.ip_info_text, board_id,
                 some cfg.MONDAY_COLUMN_MAPPINGS, some cfg.MONDAY_DROPDOWN_ALLOWED_TAGS⟩ : PushCall)]
            else []
          let store' := dictDelete store submission_id
          if s.qualified then
            ⟨.redirect "qualified" (verifiedQualifiedMessage cfg.FORM_TITLE), store', records⟩
          else
            ⟨.redirect "disqualified_no_capture" verifiedConsentedMessage, store', records⟩
    else ⟨.invalidCode codeMismatchMessage, store, []⟩

/-! ## Reference transform for the normalizer claim -/

/-- Reference transform following the words of spec §4.1, as amended: values
are trimmed of surrounding whitespace and matched case-insensitively; on the
five yes/no fields yes/y map to "Yes" and no/n map to "No"; handedness values
containing "left"/"right" map to "Left-handed"/"Right-handed"; consent "yes"
and "no" map to "I, confirm" and "I, do not confirm"; every other value passes
through unchanged, and there is no "Not Applicable" rule. -/
def specNormalizeValue (key value : String) : String :=
  let canon := pyLower (pyStrip value)
  if key ∈ yesNoKeys then
    if canon ∈ ["yes", "y"] then "Yes"
    else if canon ∈ ["no", "n"] then "No"
    else value
  else if key = "handedness" then
    if strContains canon "left" then "Left-handed"
    else if strContains canon "right" then "Right-handed"
    else value
  else if key = "future_study_consent" then
    if canon = "yes" then "I, confirm"
    else if canon = "no" then "I, do not confirm"
    else value
  else value

/-- The reference transform of spec §4.1 (amended) on a whole answer mapping. -/
def specNormalize (d : Dict) : Dict :=
  d.map (fun p => (p.1, specNormalizeValue p.1 p.2))

/-! ## Concrete inputs for witnesses and counterexamples -/

/-- A well-formed submission that satisfies every eligibility criterion and
consents to future contact. -/
def baseForm : Dict :=
  [("name", "Jane Roe"), ("email", "jane@example.com"), ("phone", "5551234567"),
   ("dob", "01/15/1990"), ("city_state", "Newark, NJ"),
   ("tbi_year", "yes"), ("memory_issues", "Yes"), ("english_fluent", "Y"),
   ("handedness", "left"), ("can_exercise", "Yes"), ("can_mri", "Yes"),
   ("future_study_consent", "Yes"), ("study_interest_keywords", "TBI")]

/-- Collaborator responses for a smooth run: not a duplicate, geocoding
succeeds, the location is within range, the SMS goes out. -/
def baseEnv : Env :=
  { isDuplicate := false
    geocode := some (1, 1)
    withinDistance := fun _ _ => true
    smsSuccess := true
    smsError := ""
    freshId := "sub-0001"
    generatedCode := "1234"
    ipInfoText := ""
    today := ⟨2026, 10, 12⟩ }

/-- Environment whose geocoder cannot resolve the location text. -/
def geoFailEnv : Env :=
  { baseEnv with geocode := none }

/-- Environment whose duplicate check reports the email as already present. -/
def duplicateEnv : Env :=
  { baseEnv with isDuplicate := true }

/-- Environment whose SMS send fails. -/
def smsFailEnv : Env :=
  { baseEnv with
    smsSuccess := false
    smsError := "❌ Failed to send SMS. Please check your number and try again." }

/-- A submission that fails the exercise criterion and declines future
contact. -/
def declinedForm : Dict :=
  [("name", "Jane Roe"), ("email", "jane@example.com"), ("phone", "5551234567"),
   ("dob", "01/15/1990"), ("city_state", "Newark, NJ"),
   ("tbi_year", "yes"), ("memory_issues", "Yes"), ("english_fluent", "Y"),
   ("handedness", "left"), ("can_exercise", "No"), ("can_mri", "Yes"),
   ("future_study_consent", "no"), ("study_interest_keywords", "")]

/-- A study config as loaded from src/configs/study_tbi_kessler.py. -/
def kesslerConfig : StudyConfig :=
  { FORM_TITLE := "Kessler TBI Study Qualification"
    MONDAY_COLUMN_MAPPINGS :=
      [("email", "email"), ("phone", "phone"), ("dob", "date"), ("city_state", "text9"),
       ("tbi_year", "single_select"), ("memory_issues", "single_select3"),
       ("english_fluent", "single_select1"), ("handedness", "single_select7"),
       ("can_exercise", "single_select0"), ("can_mri", "single_select9"),
       ("future_study_consent", "single_select__1")]
    MONDAY_DROPDOWN_ALLOWED_TAGS := ["Too far", "Left-handed", "fraudulent"] }

/-- A `verify_code` environment that can load the Kessler study config. -/
def kesslerVerifyEnv : VerifyEnv :=
  ⟨fun _ => some kesslerConfig⟩

/-! ## Helper lemmas -/

/-- Inserting a fresh key and deleting it again restores the store. -/
theorem dictDelete_dictSet_of_get_none {α : Type} (d : List (String × α)) (k : String) (v : α)
    (h : dictGet? d k = none) : dictDelete (dictSet d k v) k = d := by
  induction d with
  | nil => simp [dictSet, dictDelete]
  | cons p rest ih =>
    obtain ⟨k', v'⟩ := p
    simp only [dictGet?] at h
    by_cases hk : k' = k
    · rw [if_pos hk] at h
      exact absurd h (by simp)
    · rw [if_neg hk] at h
      simp only [dictSet, if_neg hk, dictDelete, ih h]

/-- The yes/no canonicalizer is idempotent. -/
theorem normalizeYesNo_idem (v : String) :
    normalizeYesNo (normalizeYesNo v) = normalizeYesNo v := by
  by_cases h1 : pyLower (pyStrip v) = "yes" ∨ pyLower (pyStrip v) = "y"
  · have hv : normalizeYesNo v = "Yes" := by
      simp only [normalizeYesNo]
      rw [if_pos h1]
    rw [hv]
    decide
  · by_cases h2 : pyLower (pyStrip v) = "no" ∨ pyLower (pyStrip v) = "n"
    · have hv : normalizeYesNo v = "No" := by
        simp only [normalizeYesNo]
        rw [if_neg h1, if_pos h2]
      rw [hv]
      decide
    · have hv : normalizeYesNo v = v := by
        simp only [normalizeYesNo]
        rw [if_neg h1, if_neg h2]
      rw [hv, hv]

/-- The handedness canonicalizer is idempotent. -/
theorem normalizeHandedness_idem (v : String) :
    normalizeHandedness (normalizeHandedness v) = normalizeHandedness v := by
  by_cases h1 : strContains (pyLower (pyStrip v)) "left" = true
  · have hv : normalizeHandedness v = "Left-handed" := by
      simp only [normalizeHandedness]
      rw [if_pos h1]
    rw [hv]
    decide
  · by_cases h2 : strContains (pyLower (pyStrip v)) "right" = true
    · have hv : normalizeHandedness v = "Right-handed" := by
        simp only [normalizeHandedness]
        rw [if_neg h1, if_pos h2]
      rw [hv]
      decide
    · have hv : normalizeHandedness v = v := by
        simp only [normalizeHandedness]
        rw [if_neg h1, if_neg h2]
      rw [hv, hv]

/-- The consent canonicalizer is idempotent. -/
theorem normalizeConsent_idem (v : String) :
    normalizeConsent (normalizeConsent v) = normalizeConsent v := by
  by_cases h1 : pyLower (pyStrip v) = "yes"
  · have hv : normalizeConsent v = "I, confirm" := by
      simp only [normalizeConsent]
      rw [if_pos h1]
    rw [hv]
    decide
  · by_cases h2 : pyLower (pyStrip v) = "no"
    · have hv : normalizeConsent v = "I, do not confirm" := by
        simp only [normalizeConsent]
        rw [if_neg h1, if_pos h2]
      rw [hv]
      decide
    · have hv : normalizeConsent v = v := by
        simp only [normalizeConsent]
        rw [if_neg h1, if_neg h2]
      rw [hv, hv]

/-- One loop iteration of `normalize_fields` is idempotent for every key. -/
theorem normalizeEntry_idem (k v : String) :
    normalizeEntry k (normalizeEntry k v) = normalizeEntry k v := by
  by_cases hk : k ∈ yesNoKeys
  · simp only [normalizeEntry, if_pos hk, normalizeYesNo_idem]
  · by_cases hh : k = "handedness"
    · simp only [normalizeEntry, if_neg hk, if_pos hh, normalizeHandedness_idem]
    · by_cases hc : k = "future_study_consent"
      · simp only [normalizeEntry, if_neg hk, if_neg hh, if_pos hc, normalizeConsent_idem]
      · simp only [normalizeEntry, if_neg hk, if_neg hh, if_neg hc]

/-- One loop iteration of `normalize_fields` agrees with the §4.1 reference
transform pointwise. -/
theorem normalizeEntry_eq_spec (k v : String) :
    normalizeEntry k v = specNormalizeValue k v := by
  by_cases hk : k ∈ yesNoKeys
  · simp only [normalizeEntry, specNormalizeValue, if_pos hk, normalizeYesNo,
      List.mem_cons, List.mem_singleton, List.not_mem_nil, or_false]
  · by_cases hh : k = "handedness"
    · simp only [normalizeEntry, specNormalizeValue, if_neg hk, if_pos hh, normalizeHandedness]
    · by_cases hc : k = "future_study_consent"
      · simp only [normalizeEntry, specNormalizeValue, if_neg hk, if_neg hh, if_pos hc,
          normalizeConsent]
      · simp only [normalizeEntry, specNormalizeValue, if_neg hk, if_neg hh, if_neg hc]

/-! ## Claims -/

/-- C6 (counterexample): the claim's "Not Applicable" clause and its
pass-through clause both fail on the code.  `normalize_fields` maps a
yes/no-family value "n/a" to itself, not to "Not Applicable" (no such mapping
exists in the source), and it does not pass " yes " through unchanged (values
are stripped of surrounding whitespace before matching). -/
theorem c6_counterexample :
    normalize_fields [("tbi_year", "n/a")] = [("tbi_year", "n/a")] ∧
    normalize_fields [("tbi_year", "n/a")] ≠ [("tbi_year", "Not Applicable")] ∧
    normalize_fields [("tbi_year", " yes ")] = [("tbi_year", "Yes")] := by
  refine ⟨by decide, by decide, by decide⟩

/-- C6 (amended): `normalize_fields` is total and equals the §4.1 reference
transform amended as the counterexample forces: values are trimmed of
surrounding whitespace and matched case-insensitively; yes/y → "Yes" and
no/n → "No" on the five yes/no fields; handedness values containing
"left"/"right" → "Left-handed"/"Right-handed"; consent "yes"/"no" →
"I, confirm"/"I, do not confirm"; every other value passes through unchanged;
there is no "Not Applicable" mapping. -/
theorem c6_normalize_fields_eq_spec (d : Dict) :
    normalize_fields d = specNormalize d := by
  induction d with
  | nil => rfl
  | cons p rest ih =>
    simp only [normalize_fields, specNormalize, List.map_cons] at ih ⊢
    rw [normalizeEntry_eq_spec, ih]

/-- C10: `normalize_fields` is idempotent — normalizing an already-normalized
answer mapping changes nothing, so every value of its output vocabulary and
every passed-through value is a fixed point of a second normalization. -/
theorem c10_normalize_fields_idempotent (d : Dict) :
    normalize_fields (normalize_fields d) = normalize_fields d := by
  induction d with
  | nil => rfl
  | cons p rest ih =>
    simp only [normalize_fields, List.map_cons] at ih ⊢
    rw [normalizeEntry_idem, ih]

/-- C7: the distance check is an inclusive threshold over the haversine
great-circle distance (Earth radius 3958.8 miles, threshold 50 miles):
`is_within_distance` holds iff the distance is at most the threshold — so a
pair of coordinates at exactly the threshold distance satisfies it — and it
fails exactly when the distance exceeds the threshold. -/
theorem c7_distance_threshold_inclusive (lat lon : ℝ) :
    (is_within_distance lat lon ↔
      haversine_distance lat lon KESSLER_LAT KESSLER_LON ≤ DISTANCE_THRESHOLD_MILES) ∧
    (¬ is_within_distance lat lon ↔
      DISTANCE_THRESHOLD_MILES < haversine_distance lat lon KESSLER_LAT KESSLER_LON) :=
  ⟨Iff.rfl, not_le⟩

/-- C8: a date of birth exactly 18 years before today (same month and day)
makes `calculate_age` return 18 without raising, so the applicant passes the
age requirement; a date of birth whose month/day has not yet come around this
year with only 18 calendar years of span — for example an applicant of exactly
17 years and 364 days — is computed as age 17 and raises the under-18
`ValueError`. -/
theorem c8_age_boundary (today dob18 dobY : PyDate) (s18 sY : String)
    (hp18 : parseDate s18 = some dob18)
    (h18y : dob18.year = today.year - 18)
    (h18m : dob18.month = today.month)
    (h18d : dob18.day = today.day)
    (hpY : parseDate sY = some dobY)
    (hYy : dobY.year + 18 = today.year)
    (hYlt : monthDayLt (today.month, today.day) (dobY.month, dobY.day) = true) :
    calculateAgeFromString s18 today = .ok 18 ∧
    calculateAgeFromString sY today = .error under18Message := by
  have hlt : monthDayLt (today.month, today.day) (today.month, today.day) = false := by
    simp [monthDayLt]
  constructor
  · have hage : pyAge dob18 today = 18 := by
      simp [pyAge, h18m, h18d, hlt]
      omega
    simp only [calculateAgeFromString, hp18, calculate_age, hage]
    norm_num
  · have hage : pyAge dobY today = 17 := by
      simp [pyAge, hYlt]
      omega
    simp only [calculateAgeFromString, hpY, calculate_age, hage]
    norm_num

/-- A boolean whose negation is false is true. -/
theorem bnot_eq_false {b : Bool} (h : (!b) = false) : b = true := by
  cases b
  · exact absurd h (by decide)
  · rfl

/-- A reason chunk that is empty has a false guard. -/
theorem chunkNilFalse {c : Bool} {m : String} (h : (if c then [m] else []) = []) : c = false := by
  cases c
  · rfl
  · exact absurd h (by simp)

/-- A reason chunk is a sublist of its singleton. -/
theorem chunkSublist (c : Bool) (m : String) : List.Sublist (if c then [m] else []) [m] := by
  cases c
  · simp
  · simp

/-- The reasons list is a sublist of the six pairwise-distinct messages in
declaration order. -/
theorem disqualification_reasons_sublist (data : Dict) (dok : Bool) :
    List.Sublist (disqualification_reasons data dok)
      ["you are located outside the eligible distance from our research site",
       "you have not experienced a TBI at least one year ago",
       "you do not have persistent memory problems",
       "you are not fluent in English",
       "you are not willing or able to exercise",
       "you are not able to undergo an MRI"] := by
  unfold disqualification_reasons
  refine List.Sublist.append (List.Sublist.append (List.Sublist.append (List.Sublist.append
    (List.Sublist.append (chunkSublist _ _) (chunkSublist _ _)) (chunkSublist _ _))
    (chunkSublist _ _)) (chunkSublist _ _)) (chunkSublist _ _)

/-- The reasons list never contains a duplicate string. -/
theorem disqualification_reasons_nodup (data : Dict) (dok : Bool) :
    (disqualification_reasons data dok).Nodup :=
  (disqualification_reasons_sublist data dok).nodup (by decide)

/-- A disqualified verdict always has at least one reason. -/
theorem disqualification_reasons_ne_nil (data : Dict) (dok : Bool)
    (hq : qualifiedOf data dok = false) :
    disqualification_reasons data dok ≠ [] := by
  intro hnil
  simp only [disqualification_reasons, List.append_eq_nil] at hnil
  obtain ⟨⟨⟨⟨⟨h1, h2⟩, h3⟩, h4⟩, h5⟩, h6⟩ := hnil
  have d1 := bnot_eq_false (chunkNilFalse h1)
  have d2 := bnot_eq_false (chunkNilFalse h2)
  have d3 := bnot_eq_false (chunkNilFalse h3)
  have d4 := bnot_eq_false (chunkNilFalse h4)
  have d5 := bnot_eq_false (chunkNilFalse h5)
  have d6 := bnot_eq_false (chunkNilFalse h6)
  unfold qualifiedOf at hq
  rw [d1, d2, d3, d4, d5, d6] at hq
  exact absurd hq (by decide)

/-- A date-of-birth string that yields an age is not the empty string. -/
theorem dob_nonempty_of_age_ok (pd : Dict) (t : PyDate) (age : Int)
    (hage : calculateAgeFromString (dictGetD pd "dob" "") t = .ok age) :
    (dictGetD pd "dob" "" == "") = false := by
  by_cases hd : dictGetD pd "dob" "" = ""
  · rw [hd] at hage
    have hbad : calculateAgeFromString "" t = .error badFormatMessage := rfl
    rw [hbad] at hage
    exact Except.noConfusion hage
  · exact beq_eq_false_iff_ne.mpr hd

/-- C1 (counterexample): on a fully valid submission whose geocoder returns no
coordinates, the orchestrator returns the terminal error result at once — the
rule evaluation does not proceed, no "Location unknown" tag exists anywhere
(no session, no record, no SMS), contradicting the claim that a geocoding
failure is not a hard reject. -/
theorem c1_counterexample :
    process_qualification_submission_from_form geoFailEnv baseForm none [] =
      ⟨⟨"error", locationErrorMessage, none⟩, [], [], [], []⟩ := by
  decide

/-- C1 (amended): for every submission that passes validation and the
duplicate check, a geocoding failure makes the orchestrator hard-reject with
the location error message: no rule is evaluated, no tag is produced, the
session store is untouched and no external call is attempted. -/
theorem c1_geocode_failure_hard_rejects (env : Env) (fd : Dict) (ip : Option String)
    (store : SessionStore) (age : Int)
    (hemail : emailOk (dictGetD (procData fd ip) "email" "") = true)
    (hphone : is_us_number (dictGetD (procData fd ip) "phone" "") = true)
    (hage : calculateAgeFromString (dictGetD (procData fd ip) "dob" "") env.today = .ok age)
    (hcity : dictGetD (procData fd ip) "city_state" "" ≠ "")
    (hdup : env.isDuplicate = false)
    (hgeo : env.geocode = none) :
    process_qualification_submission_from_form env fd ip store =
      ⟨⟨"error", locationErrorMessage, none⟩, store, [], [], []⟩ := by
  have hdob := dob_nonempty_of_age_ok (procData fd ip) env.today age hage
  have hcity' : (dictGetD (procData fd ip) "city_state" "" == "") = false :=
    beq_eq_false_iff_ne.mpr hcity
  simp only [process_qualification_submission_from_form, hemail, hphone, hdob, hage, hcity',
    hdup, hgeo, Bool.not_true, Bool.false_eq_true, if_false, if_true]

/-- C1 (witness): the amended theorem applied to a concrete valid submission
with a failing geocoder. -/
theorem c1_geocode_failure_hard_rejects_witness :
    emailOk (dictGetD (procData baseForm none) "email" "") = true ∧
    is_us_number (dictGetD (procData baseForm none) "phone" "") = true ∧
    calculateAgeFromString (dictGetD (procData baseForm none) "dob" "") geoFailEnv.today =
      .ok 36 ∧
    dictGetD (procData baseForm none) "city_state" "" ≠ "" ∧
    geoFailEnv.isDuplicate = false ∧
    geoFailEnv.geocode = none ∧
    process_qualification_submission_from_form geoFailEnv baseForm none [] =
      ⟨⟨"error", locationErrorMessage, none⟩, [], [], [], []⟩ :=
  ⟨by decide, by decide, by decide, by decide, by decide, by decide,
    c1_geocode_failure_hard_rejects geoFailEnv baseForm none [] 36 (by decide) (by decide)
      (by decide) (by decide) (by decide) (by decide)⟩

/-- C2: a submission that evaluates as not qualified and whose future-contact
consent is not "I, confirm" gets the terminal `disqualified_no_capture`
result; its message joins the (duplicate-free, provably nonempty) reasons in
the source's natural-language list form, the session store is untouched, no
`push_to_monday` call site is reached and no SMS is sent. -/
theorem c2_terminal_disqualified (env : Env) (fd : Dict) (ip : Option String)
    (store : SessionStore) (age : Int) (la lo : Rat)
    (hemail : emailOk (dictGetD (procData fd ip) "email" "") = true)
    (hphone : is_us_number (dictGetD (procData fd ip) "phone" "") = true)
    (hage : calculateAgeFromString (dictGetD (procData fd ip) "dob" "") env.today = .ok age)
    (hcity : dictGetD (procData fd ip) "city_state" "" ≠ "")
    (hdup : env.isDuplicate = false)
    (hgeo : env.geocode = some (la, lo))
    (hla : (la == 0) = false) (hlo : (lo == 0) = false)
    (hq : qualifiedOf (procData fd ip) (env.withinDistance la lo) = false)
    (hcons : (dictGet? (procData fd ip) "future_study_consent" == some "I, confirm") = false) :
    disqualification_reasons (procData fd ip) (env.withinDistance la lo) ≠ [] ∧
    (disqualification_reasons (procData fd ip) (env.withinDistance la lo)).Nodup ∧
    process_qualification_submission_from_form env fd ip store =
      ⟨⟨"disqualified_no_capture",
        becausePre ++
          joinReasons (disqualification_reasons (procData fd ip) (env.withinDistance la lo)) ++
          becauseSuf, none⟩,
        store, [], [], []⟩ := by
  have hne := disqualification_reasons_ne_nil _ _ hq
  refine ⟨hne, disqualification_reasons_nodup _ _, ?_⟩
  have hdob := dob_nonempty_of_age_ok (procData fd ip) env.today age hage
  have hcity' : (dictGetD (procData fd ip) "city_state" "" == "") = false :=
    beq_eq_false_iff_ne.mpr hcity
  have hlen : (disqualification_reasons (procData fd ip) (env.withinDistance la lo)).length > 0 :=
    List.length_pos.mpr hne
  simp only [process_qualification_submission_from_form, hemail, hphone, hdob, hage, hcity',
    hdup, hgeo, hla, hlo, hq, hcons, hlen, Bool.not_true, Bool.not_false, Bool.false_eq_true,
    Bool.or_self, Bool.true_and, Bool.and_false, if_false, if_true]

/-- C2 (witness): the theorem applied to a concrete submission that fails the
exercise criterion and declines future contact. -/
theorem c2_terminal_disqualified_witness :
    emailOk (dictGetD (procData declinedForm none) "email" "") = true ∧
    is_us_number (dictGetD (procData declinedForm none) "phone" "") = true ∧
    calculateAgeFromString (dictGetD (procData declinedForm none) "dob" "") baseEnv.today =
      .ok 36 ∧
    dictGetD (procData declinedForm none) "city_state" "" ≠ "" ∧
    baseEnv.isDuplicate = false ∧
    baseEnv.geocode = some (1, 1) ∧
    ((1 : Rat) == 0) = false ∧
    qualifiedOf (procData declinedForm none) (baseEnv.withinDistance 1 1) = false ∧
    (dictGet? (procData declinedForm none) "future_study_consent" == some "I, confirm") =
      false ∧
    (disqualification_reasons (procData declinedForm none) (baseEnv.withinDistance 1 1) ≠ [] ∧
     (disqualification_reasons (procData declinedForm none) (baseEnv.withinDistance 1 1)).Nodup ∧
     process_qualification_submission_from_form baseEnv declinedForm none [] =
       ⟨⟨"disqualified_no_capture",
         becausePre ++
           joinReasons
             (disqualification_reasons (procData declinedForm none)
               (baseEnv.withinDistance 1 1)) ++
           becauseSuf, none⟩,
         [], [], [], []⟩) :=
  ⟨by decide, by decide, by decide, by decide, by decide, by decide, by decide, by decide,
    by decide,
    c2_terminal_disqualified baseEnv declinedForm none [] 36 1 1 (by decide) (by decide)
      (by decide) (by decide) (by decide) (by decide) (by decide) (by decide) (by decide)
      (by decide)⟩

/-- C3: the claim fails on the code.  A concrete qualified submission creates
a verification session (status `sms_required`, session stored under the fresh
id with the generated code); the completion attempt with the matching code
then reads `submission_data["monday_board_id"]`, a key the orchestrator never
stores, so the request dies in the exception handler: no external recording
call is made and the session is not deleted. -/
theorem c3_verify_code_keyerror :
    (process_qualification_submission_from_form baseEnv baseForm none []).result.status =
      "sms_required" ∧
    (dictGet? (process_qualification_submission_from_form baseEnv baseForm none []).store
        "sub-0001").map Session.code = some "1234" ∧
    verify_code kesslerVerifyEnv
        (process_qualification_submission_from_form baseEnv baseForm none []).store
        "sub-0001" "1234" =
      ⟨.unhandledException,
        (process_qualification_submission_from_form baseEnv baseForm none []).store, []⟩ := by
  refine ⟨by decide, by decide, by decide⟩

/-- C4: the claim fails on the code.  On a valid submission whose email the
duplicate check reports as present, the orchestrator reaches the
`push_to_monday` call site with six arguments against the eight-parameter
signature: the call raises before the body runs (no record is made), and the
broad exception handler returns the generic error result — the `duplicate`
result of line 498 is never returned, and the evaluator and geocoder are
indeed never invoked. -/
theorem c4_duplicate_typeerror :
    process_qualification_submission_from_form duplicateEnv baseForm none [] =
      ⟨⟨"error", unexpectedErrorMessage, none⟩, [],
        [⟨[("email", "jane@example.com"), ("name", "Jane Roe"), ("source", "Form Submission")],
          "group_mkqb9ps4", false, ["Duplicate"], "", MONDAY_BOARD_ID, none, none⟩], [], []⟩ ∧
    pushCallRaises
        ⟨[("email", "jane@example.com"), ("name", "Jane Roe"), ("source", "Form Submission")],
          "group_mkqb9ps4", false, ["Duplicate"], "", MONDAY_BOARD_ID, none, none⟩ = true := by
  refine ⟨by decide, by decide⟩

/-- C5: when a submission requires verification and the one-time-code SMS send
fails, the just-created session is deleted again — the store ends exactly as
it began — and the internal-error result is returned; the only external
effect is the failed SMS attempt itself. -/
theorem c5_sms_failure_discards_session (env : Env) (fd : Dict) (ip : Option String)
    (store : SessionStore) (age : Int) (la lo : Rat)
    (hemail : emailOk (dictGetD (procData fd ip) "email" "") = true)
    (hphone : is_us_number (dictGetD (procData fd ip) "phone" "") = true)
    (hage : calculateAgeFromString (dictGetD (procData fd ip) "dob" "") env.today = .ok age)
    (hcity : dictGetD (procData fd ip) "city_state" "" ≠ "")
    (hdup : env.isDuplicate = false)
    (hgeo : env.geocode = some (la, lo))
    (hla : (la == 0) = false) (hlo : (lo == 0) = false)
    (hscen : (qualifiedOf (procData fd ip) (env.withinDistance la lo) ||
        (dictGet? (procData fd ip) "future_study_consent" == some "I, confirm")) = true)
    (hsms : env.smsSuccess = false)
    (hfresh : dictGet? store env.freshId = none) :
    process_qualification_submission_from_form env fd ip store =
      ⟨⟨"error", smsFailMessage env.smsError, none⟩, store, [], [],
        [(format_us_number (dictGetD (procData fd ip) "phone" ""), env.generatedCode)]⟩ := by
  have hdob := dob_nonempty_of_age_ok (procData fd ip) env.today age hage
  have hcity' : (dictGetD (procData fd ip) "city_state" "" == "") = false :=
    beq_eq_false_iff_ne.mpr hcity
  have hdel := dictDelete_dictSet_of_get_none store env.freshId
  by_cases hq : qualifiedOf (procData fd ip) (env.withinDistance la lo) = true
  · simp only [process_qualification_submission_from_form, smsFlow, hemail, hphone, hdob, hage,
      hcity', hdup, hgeo, hla, hlo, hq, hsms, Bool.not_true, Bool.or_self, Bool.false_eq_true,
      if_false, if_true]
    rw [hdel _ hfresh]
  · have hq' : qualifiedOf (procData fd ip) (env.withinDistance la lo) = false :=
      Bool.not_eq_true _ ▸ Bool.eq_false_iff.mpr hq
    rw [hq'] at hscen
    simp only [Bool.false_or] at hscen
    simp only [process_qualification_submission_from_form, smsFlow, hemail, hphone, hdob, hage,
      hcity', hdup, hgeo, hla, hlo, hq', hscen, hsms, Bool.not_true, Bool.not_false,
      Bool.or_self, Bool.false_eq_true, Bool.true_and, if_false, if_true]
    rw [hdel _ hfresh]

/-- C5 (witness): the theorem applied to a concrete qualified submission whose
SMS delivery fails. -/
theorem c5_sms_failure_discards_session_witness :
    emailOk (dictGetD (procData baseForm none) "email" "") = true ∧
    is_us_number (dictGetD (procData baseForm none) "phone" "") = true ∧
    calculateAgeFromString (dictGetD (procData baseForm none) "dob" "") smsFailEnv.today =
      .ok 36 ∧
    dictGetD (procData baseForm none) "city_state" "" ≠ "" ∧
    smsFailEnv.isDuplicate = false ∧
    smsFailEnv.geocode = some (1, 1) ∧
    ((1 : Rat) == 0) = false ∧
    (qualifiedOf (procData baseForm none) (smsFailEnv.withinDistance 1 1) ||
      (dictGet? (procData baseForm none) "future_study_consent" == some "I, confirm")) = true ∧
    smsFailEnv.smsSuccess = false ∧
    dictGet? ([] : SessionStore) smsFailEnv.freshId = none ∧
    process_qualification_submission_from_form smsFailEnv baseForm none [] =
      ⟨⟨"error", smsFailMessage smsFailEnv.smsError, none⟩, [], [], [],
        [(format_us_number (dictGetD (procData baseForm none) "phone" ""),
          smsFailEnv.generatedCode)]⟩ :=
  ⟨by decide, by decide, by decide, by decide, by decide, by decide, by decide, by decide,
    by decide, by decide,
    c5_sms_failure_discards_session smsFailEnv baseForm none [] 36 1 1 (by decide) (by decide)
      (by decide) (by decide) (by decide) (by decide) (by decide) (by decide) (by decide)
      (by decide) (by decide)⟩

/-- C8 (witness): the age-boundary theorem applied on today 2026-10-12 to the
date-of-birth strings "10/12/2008" (exactly 18 years old, passes) and
"10/13/2008" (17 years and 364 days old, raises). -/
theorem c8_age_boundary_witness :
    parseDate "10/12/2008" = some ⟨2008, 10, 12⟩ ∧
    (2008 : Int) = 2026 - 18 ∧
    parseDate "10/13/2008" = some ⟨2008, 10, 13⟩ ∧
    (2008 : Int) + 18 = 2026 ∧
    monthDayLt (10, 12) (10, 13) = true ∧
    (calculateAgeFromString "10/12/2008" ⟨2026, 10, 12⟩ = .ok 18 ∧
     calculateAgeFromString "10/13/2008" ⟨2026, 10, 12⟩ = .error under18Message) :=
  ⟨by decide, by decide, by decide, by decide, by decide,
    c8_age_boundary ⟨2026, 10, 12⟩ ⟨2008, 10, 12⟩ ⟨2008, 10, 13⟩ "10/12/2008" "10/13/2008"
      (by decide) (by decide) (by decide) (by decide) (by decide) (by decide) (by decide)⟩

/-- C9: the claim fails on the code.  Two completion attempts carrying the
matching code for the same stored session result in zero calls to the
external recording collaborator, not exactly one: each attempt — under every
interleaving of the two, since the outcome of an attempt does not depend on
the other's progress — dies on the read of the absent `"monday_board_id"` key
before the `push_to_monday` call site is reached, and never deletes the
session, so the second attempt observes exactly the state the first one saw.
Concretely: a qualified submission stores a session (status `sms_required`)
whose code matches the submitted one, the first completion attempt makes no
recording and leaves the store unchanged, and so does the second attempt run
on the store the first one left behind. -/
theorem c9_double_completion_zero_recordings :
    (process_qualification_submission_from_form baseEnv baseForm none []).result.status =
      "sms_required" ∧
    (dictGet? (process_qualification_submission_from_form baseEnv baseForm none []).store
        "sub-0001").map Session.code = some "1234" ∧
    (verify_code kesslerVerifyEnv
        (process_qualification_submission_from_form baseEnv baseForm none []).store
        "sub-0001" "1234").recordsMade = [] ∧
    (verify_code kesslerVerifyEnv
        (process_qualification_submission_from_form baseEnv baseForm none []).store
        "sub-0001" "1234").store =
      (process_qualification_submission_from_form baseEnv baseForm none []).store ∧
    (verify_code kesslerVerifyEnv
        (verify_code kesslerVerifyEnv
          (process_qualification_submission_from_form baseEnv baseForm none []).store
          "sub-0001" "1234").store
        "sub-0001" "1234").recordsMade = [] ∧
    (verify_code kesslerVerifyEnv
        (verify_code kesslerVerifyEnv
          (process_qualification_submission_from_form baseEnv baseForm none []).store
          "sub-0001" "1234").store
        "sub-0001" "1234").store =
      (process_qualification_submission_from_form baseEnv baseForm none []).store := by
  refine ⟨by decide, by decide, by decide, by decide, by decide, by decide⟩
